import Mathlib

/-
Verification of the WEMS Grafana datasource backend (pkg/plugin/datasource.go).

The Go code is shallowly embedded: the HTTP layer is an oracle parameter
(one HttpResult per potential round trip), time.Now() is an explicit
integer instant in seconds, and the per-instance mutable state
(token, tokenExpiry) is passed explicitly.  Every definition mirrors a
concrete piece of the source; deviations forced by the embedding
(status line rendered as the bare status number, JSON decoding of
library-defined shapes taken as an oracle) are noted at the definition.
-/

namespace WemsPlugin

/-- Outcome of one HTTP round trip as the Go code observes it:
request construction can fail before any network traffic
(http.NewRequestWithContext error), the transport can fail
(client.Do error), or a response with a status code arrives whose
body read (io.ReadAll) either yields bytes or fails. -/
inductive HttpResult where
  | reqBuildErr (msg : String)
  | transportErr (msg : String)
  | response (status : Nat) (body : Except String String)

/-- Body bytes used when the Go code ignores the read error
(bodyBytes, _ := io.ReadAll): a failed read contributes empty bytes. -/
def bodyOrEmpty : Except String String → String
  | .ok s => s
  | .error _ => ""

/-- Mutable per-instance state of Datasource: the cached bearer token
and its expiry instant (epoch seconds; time.Time in the source). -/
structure DSState where
  token : String
  tokenExpiry : Int
deriving DecidableEq

/-- Safety margin of the expiry check, seconds: tokenExpiry.Add(-1*time.Minute). -/
def safetyMarginSec : Int := 60

/-- Validity window stored on refresh, seconds: time.Now().Add(30 * time.Minute). -/
def tokenValiditySec : Int := 30 * 60

/-- Result of one getTokenIfNeeded call: the returned error (or unit),
the state after the call, and how many token POSTs reached the network. -/
structure TokenStep where
  result : Except String Unit
  state : DSState
  netCalls : Nat

/-- Embedding of Datasource.getTokenIfNeeded.  The mutex is not modelled
(calls are serialized by construction here); json.Marshal of the fixed
TokenRequest payload cannot fail and is elided; the token POST outcome is
the oracle net.  The Go resp.Status string is rendered as the bare
status number. -/
def getTokenIfNeeded (st : DSState) (now : Int) (net : HttpResult) : TokenStep :=
  if st.token ≠ "" ∧ now < st.tokenExpiry - safetyMarginSec then
    ⟨.ok (), st, 0⟩
  else
    match net with
    | .reqBuildErr m => ⟨.error ("failed to create token request: " ++ m), st, 0⟩
    | .transportErr m => ⟨.error ("failed to get WEMS token: " ++ m), st, 1⟩
    | .response status body =>
      if status ≠ 200 then
        ⟨.error ("WEMS token request failed: " ++ toString status ++ " " ++ bodyOrEmpty body),
          st, 1⟩
      else
        match body with
        | .error m => ⟨.error ("failed to read token response: " ++ m), st, 1⟩
        | .ok bytes => ⟨.ok (), ⟨bytes, now + tokenValiditySec⟩, 1⟩

/-- Holds when a refresh attempt fails: request construction error,
transport error, non-200 status, or a failed body read on a 200. -/
def refreshFails : HttpResult → Bool
  | .reqBuildErr _ => true
  | .transportErr _ => true
  | .response status body =>
    if status ≠ 200 then true
    else
      match body with
      | .error _ => true
      | .ok _ => false

/-- Numeric value of a run of decimal digit characters, most significant
digit first. -/
def digitsToNat (ds : List Char) : Nat :=
  ds.foldl (fun acc c => 10 * acc + (c.toNat - '0'.toNat)) 0

/-- Exponent suffix of a float literal: optional sign then digits.
Returns none when no digits follow. -/
def parseExpPart (cs : List Char) : Option Int × List Char :=
  let signed : Bool × List Char :=
    match cs with
    | '+' :: rest => (false, rest)
    | '-' :: rest => (true, rest)
    | _ => (false, cs)
  let ds := signed.2.span Char.isDigit
  if ds.1.isEmpty then (none, ds.2)
  else
    (some (if signed.1 then -(digitsToNat ds.1 : Int) else (digitsToNat ds.1 : Int)), ds.2)

/-- Model of strconv.ParseFloat(s, 64) restricted to plain decimal
syntax: optional sign, digits with optional fraction part, optional
decimal exponent; at least one mantissa digit required and no trailing
characters allowed.  The value is kept exact as a rational; binary float
rounding, range overflow, hexadecimal floats and the Inf/NaN spellings
are outside the model (none of the claims depend on them). -/
def ParseFloat (s : String) : Option ℚ :=
  let cs := s.toList
  let signed : Bool × List Char :=
    match cs with
    | '+' :: rest => (false, rest)
    | '-' :: rest => (true, rest)
    | _ => (false, cs)
  let intSplit := signed.2.span Char.isDigit
  let fracSplit : List Char × List Char :=
    match intSplit.2 with
    | '.' :: rest => rest.span Char.isDigit
    | _ => ([], intSplit.2)
  if intSplit.1.isEmpty ∧ fracSplit.1.isEmpty then none
  else
    let expSplit : Option Int × List Char :=
      match fracSplit.2 with
      | 'e' :: rest => parseExpPart rest
      | 'E' :: rest => parseExpPart rest
      | rest => (some 0, rest)
    match expSplit.1 with
    | none => none
    | some e =>
      if ¬ expSplit.2.isEmpty then none
      else
        let mantissa : Nat := digitsToNat (intSplit.1 ++ fracSplit.1)
        let e2 : Int := e - fracSplit.1.length
        let mag : ℚ :=
          if 0 ≤ e2 then ((mantissa * 10 ^ e2.toNat : Nat) : ℚ)
          else mkRat mantissa (10 ^ (-e2).toNat)
        some (if signed.1 then -mag else mag)

/-- Dynamic type of one decoded JSON value as the switch in query
distinguishes it: float64, int, int64, bool, string, or anything else
(null, array, object).  Float64 values are modelled as exact rationals. -/
inductive GoValue where
  | float (x : ℚ)
  | int (n : Int)
  | int64 (n : Int)
  | boolean (b : Bool)
  | str (s : String)
  | other
deriving DecidableEq

/-- Per-point value conversion, the switch body of the loop in query:
float64 kept, int and int64 widened to float, bool mapped to 1.0/0.0,
strings parsed with strconv.ParseFloat and coerced to 0 on parse error,
every other shape coerced to 0. -/
def coerceValue : GoValue → ℚ
  | .float x => x
  | .int n => (n : ℚ)
  | .int64 n => (n : ℚ)
  | .boolean b => if b then 1 else 0
  | .str s =>
    match ParseFloat s with
    | some f => f
    | none => 0
  | .other => 0

/-- One decoded upstream point: {time, value}. -/
structure TimeSeriesDataPoint where
  Time : Int
  Value : GoValue
deriving DecidableEq

/-- Conversion loop of query: appends each point's instant and coerced
value to the times and values slices, in input order. -/
def convertPoints (points : List TimeSeriesDataPoint) : List Int × List ℚ :=
  points.foldl (fun acc p => (acc.1 ++ [p.Time], acc.2 ++ [coerceValue p.Value])) ([], [])

/-- Backend response statuses used by query (backend.StatusBadRequest,
backend.StatusInternal). -/
inductive BackendStatus where
  | badRequest
  | internal
deriving DecidableEq

/-- Response of one query: either backend.ErrDataResponse with a status
and message, or the single data frame with parallel time and value
columns. -/
inductive DataResponse where
  | err (status : BackendStatus) (msg : String)
  | frames (times : List Int) (values : List ℚ)
deriving DecidableEq

/-- Query model decoded from query.JSON (WEMSQueryModel in the source);
AggregateFunction is empty when absent (omitempty), CreateEmptyValues is
a nullable pointer. -/
structure WEMSQueryModel where
  EndpointID : String
  ApplianceID : String
  ServiceURI : String
  DataPoint : String
  AggregateFunction : String
  CreateEmptyValues : Option Bool
deriving DecidableEq

/-- Result of one Datasource.query call: the data response, the state the
token manager left behind, and how many HTTP requests of each kind
reached the network (tokenCalls from getTokenIfNeeded, seriesCalls for
the series GET). -/
structure QueryOutcome where
  resp : DataResponse
  state : DSState
  tokenCalls : Nat
  seriesCalls : Nat
deriving DecidableEq

/-- Embedding of Datasource.query.  The query JSON is taken already
unmarshalled into qm (the unmarshal-error branch covers malformed JSON,
not blank fields, and is outside the claims); the series GET outcome is
the oracle seriesNet; JSON decoding of a 200 body into points is the
oracle decodePoints.  URL and query-string construction carries no state
and is not modelled. -/
def query (st : DSState) (now : Int) (tokenNet : HttpResult) (seriesNet : HttpResult)
    (decodePoints : String → Except String (List TimeSeriesDataPoint))
    (qm : WEMSQueryModel) : QueryOutcome :=
  let t := getTokenIfNeeded st now tokenNet
  match t.result with
  | .error e => ⟨.err .internal ("Token error: " ++ e), t.state, t.netCalls, 0⟩
  | .ok _ =>
    if qm.EndpointID = "" ∨ qm.ApplianceID = "" ∨ qm.ServiceURI = "" ∨ qm.DataPoint = "" then
      ⟨.err .badRequest
          "Missing required query fields: endpoint_id, appliance_id, service_uri, data_point",
        t.state, t.netCalls, 0⟩
    else
      match seriesNet with
      | .reqBuildErr m =>
        ⟨.err .internal ("Failed to create request: " ++ m), t.state, t.netCalls, 0⟩
      | .transportErr m =>
        ⟨.err .internal ("Request failed: " ++ m), t.state, t.netCalls, 1⟩
      | .response status body =>
        if status ≠ 200 then
          ⟨.err .internal ("WEMS API error: " ++ toString status ++ " " ++ bodyOrEmpty body),
            t.state, t.netCalls, 1⟩
        else
          match decodePoints (bodyOrEmpty body) with
          | .error m =>
            ⟨.err .internal ("Failed to decode WEMS response: " ++ m), t.state, t.netCalls, 1⟩
          | .ok points =>
            ⟨.frames (convertPoints points).1 (convertPoints points).2,
              t.state, t.netCalls, 1⟩

/-- Appliance entry of the parsed endpoint description (local type
appliance in the appliance-list branch of CallResource). -/
structure appliance where
  ID : String
  FriendlyName : String
  ApplianceReference : Int
deriving DecidableEq

/-- Process entry of the parsed endpoint description. -/
structure process where
  ID : String
  Name : String
  Appliances : List appliance
deriving DecidableEq

/-- Parsed endpoint description (local type descResp). -/
structure descResp where
  Processes : List process
deriving DecidableEq

/-- Decoded model-lookup body (local type modelInfo). -/
structure modelInfo where
  FriendlyName : String
deriving DecidableEq

/-- Outcome of one model enrichment GET, keyed by appliance reference:
request construction failure, transport failure, or a response whose
JSON decode into modelInfo succeeds or fails. -/
inductive ModelLookup where
  | reqBuildErr (msg : String)
  | transportErr (msg : String)
  | response (status : Nat) (decoded : Except String modelInfo)

/-- One item sent over the completion channel: the map with keys id and
label built at the end of the goroutine. -/
structure ResourceItem where
  id : String
  label : String
deriving DecidableEq

/-- Pre-enrichment label of an appliance: friendly name, or id when the
friendly name is blank, with the parenthesized process name appended
when the owning process has a non-empty name (first half of the
goroutine body). -/
def preLabel (app : appliance) (procName : String) : String :=
  let label := app.FriendlyName
  let label := if label = "" then app.ID else label
  if procName ≠ "" then label ++ " (" ++ procName ++ ")" else label

/-- Model label resolved by the enrichment lookup: empty unless the
appliance reference is non-zero and the GET builds, returns status 200,
decodes, and carries a non-empty friendly name (middle of the goroutine
body). -/
def modelLabelOf (ref : Int) (net : Int → ModelLookup) : String :=
  if ref ≠ 0 then
    match net ref with
    | .reqBuildErr _ => ""
    | .transportErr _ => ""
    | .response status decoded =>
      if status = 200 then
        match decoded with
        | .ok model => if model.FriendlyName ≠ "" then model.FriendlyName else ""
        | .error _ => ""
      else ""
  else ""

/-- Complete goroutine body for one appliance: pre-enrichment label,
optional bracketed model suffix, and the sent {id, label} item. -/
def applianceTask (app : appliance) (procName : String) (net : Int → ModelLookup) :
    ResourceItem :=
  let label := preLabel app procName
  let modelLabel := modelLabelOf app.ApplianceReference net
  let label := if modelLabel ≠ "" then label ++ " [" ++ modelLabel ++ "]" else label
  ⟨app.ID, label⟩

/-- Items sent to the completion channel, in dispatch order (outer loop
over processes, inner loop over appliances); the count variable of the
source equals the length of this list. -/
def applianceDispatch (desc : descResp) (net : Int → ModelLookup) : List ResourceItem :=
  desc.Processes.flatMap
    (fun proc => proc.Appliances.map (fun app => applianceTask app proc.Name net))

/-- Receive loop: count receives from the channel, each appended to the
result slice initialized empty with make.  The parameter arrival is the
order in which goroutine results leave the channel; channel semantics
make it a permutation of the dispatched sends, which theorems take as a
hypothesis rather than assuming any particular completion order. -/
def collectLoop (count : Nat) (arrival : List ResourceItem) : List ResourceItem :=
  arrival.take count

/-- Go slice value distinguishing nil from an allocated empty slice:
json.Marshal renders nil as null and an allocated empty slice as an
empty JSON array. -/
inductive GoSlice (α : Type) where
  | nilSlice
  | alloc (xs : List α)
deriving DecidableEq

/-- Go append on a possibly-nil slice. -/
def goAppend {α : Type} : GoSlice α → α → GoSlice α
  | .nilSlice, x => .alloc [x]
  | .alloc xs, x => .alloc (xs ++ [x])

/-- encoding/json rendering of one appliance item (map keys emitted in
sorted order: id before label).  JSON string escaping is not modelled:
ids and labels are taken escape-free. -/
def marshalApplianceItem (it : ResourceItem) : String :=
  "\x7b\"id\":\"" ++ it.id ++ "\",\"label\":\"" ++ it.label ++ "\"\x7d"

/-- encoding/json rendering of one service item (map keys sorted: label
before uri; both carry the same key string). -/
def marshalServiceItem (k : String) : String :=
  "\x7b\"label\":\"" ++ k ++ "\",\"uri\":\"" ++ k ++ "\"\x7d"

/-- encoding/json rendering of a possibly-nil slice. -/
def marshalSlice {α : Type} (f : α → String) : GoSlice α → String
  | .nilSlice => "null"
  | .alloc xs => "[" ++ String.intercalate "," (xs.map f) ++ "]"

/-- backend.CallResourceResponse: status code and body bytes. -/
structure CallResourceResponse where
  Status : Nat
  Body : String
deriving DecidableEq

/-- Inbound resource request: the path and the query-string parameters
as url.Parse plus Query().Get extract them (empty string when the
parameter is missing, req.URL is empty, or parsing fails). -/
structure CallResourceRequest where
  Path : String
  endpointId : String
  applianceId : String
  serviceUri : String
deriving DecidableEq

/-- Oracles for the upstream interactions of one CallResource call: the
primary list GET (at most one per call), JSON decoding of its body where
the branch parses it (appliance description; service key map, whose Go
iteration order makes the keys a list in unspecified order), and the
model lookup per appliance reference. -/
structure ResourceEnv where
  listNet : HttpResult
  decodeDesc : String → Except String descResp
  decodeServiceKeys : String → Except String (List String)
  modelNet : Int → ModelLookup

/-- Result of one CallResource call: the response sent, the state the
token manager left behind, and counters for token POSTs, primary list
GETs that reached the network, and enrichment goroutines dispatched. -/
structure ResourceOutcome where
  resp : CallResourceResponse
  state : DSState
  tokenCalls : Nat
  listCalls : Nat
  taskCount : Nat
deriving DecidableEq

/-- Shared shape of one primary list GET inside CallResource: either the
early sender.Send response (request build failure, transport failure,
body read failure, or non-200 passthrough of status and body) or the 200
body, each paired with how many requests reached the network. -/
def fetchPrimary : HttpResult → Except (CallResourceResponse × Nat) (String × Nat)
  | .reqBuildErr m => .error (⟨500, "Failed to create request: " ++ m⟩, 0)
  | .transportErr m => .error (⟨500, "Request failed: " ++ m⟩, 1)
  | .response status body =>
    match body with
    | .error m => .error (⟨500, "Failed to read response: " ++ m⟩, 1)
    | .ok b => if status ≠ 200 then .error (⟨status, b⟩, 1) else .ok (b, 1)

/-- Embedding of Datasource.CallResource: token check, then dispatch on
req.Path over the four list endpoints, else 404.  URL construction is
not modelled; the body sent for the appliance and service branches uses
the json.Marshal model above (its error return is discarded in the
source and cannot fire for these value shapes). -/
def CallResource (st : DSState) (now : Int) (tokenNet : HttpResult)
    (req : CallResourceRequest) (env : ResourceEnv)
    (arrival : List ResourceItem) : ResourceOutcome :=
  let t := getTokenIfNeeded st now tokenNet
  match t.result with
  | .error e => ⟨⟨500, "Token error: " ++ e⟩, t.state, t.netCalls, 0, 0⟩
  | .ok _ =>
    if req.Path = "endpoint-list" then
      match fetchPrimary env.listNet with
      | .error (r, n) => ⟨r, t.state, t.netCalls, n, 0⟩
      | .ok (b, n) => ⟨⟨200, b⟩, t.state, t.netCalls, n, 0⟩
    else if req.Path = "appliance-list" then
      if req.endpointId = "" then
        ⟨⟨400, "Missing endpointId parameter"⟩, t.state, t.netCalls, 0, 0⟩
      else
        match fetchPrimary env.listNet with
        | .error (r, n) => ⟨r, t.state, t.netCalls, n, 0⟩
        | .ok (b, n) =>
          match env.decodeDesc b with
          | .error m =>
            ⟨⟨500, "Failed to parse appliances: " ++ m⟩, t.state, t.netCalls, n, 0⟩
          | .ok desc =>
            let dispatched := applianceDispatch desc env.modelNet
            let result := collectLoop dispatched.length arrival
            ⟨⟨200, marshalSlice marshalApplianceItem (.alloc result)⟩,
              t.state, t.netCalls, n, dispatched.length⟩
    else if req.Path = "service-list" then
      if req.endpointId = "" ∨ req.applianceId = "" then
        ⟨⟨400, "Missing endpointId or applianceId parameter"⟩, t.state, t.netCalls, 0, 0⟩
      else
        match fetchPrimary env.listNet with
        | .error (r, n) => ⟨r, t.state, t.netCalls, n, 0⟩
        | .ok (b, n) =>
          match env.decodeServiceKeys b with
          | .error m =>
            ⟨⟨500, "Failed to parse service list: " ++ m⟩, t.state, t.netCalls, n, 0⟩
          | .ok keys =>
            let result := keys.foldl (fun acc k => goAppend acc k) GoSlice.nilSlice
            ⟨⟨200, marshalSlice marshalServiceItem result⟩, t.state, t.netCalls, n, 0⟩
    else if req.Path = "datapoint-list" then
      if req.endpointId = "" ∨ req.applianceId = "" ∨ req.serviceUri = "" then
        ⟨⟨400, "Missing endpointId, applianceId, or serviceUri parameter"⟩,
          t.state, t.netCalls, 0, 0⟩
      else
        match fetchPrimary env.listNet with
        | .error (r, n) => ⟨r, t.state, t.netCalls, n, 0⟩
        | .ok (b, n) => ⟨⟨200, b⟩, t.state, t.netCalls, n, 0⟩
    else
      ⟨⟨404, "Not found"⟩, t.state, t.netCalls, 0, 0⟩

/-- Total number of appliances across all processes of a description. -/
def totalAppliances (desc : descResp) : Nat :=
  (desc.Processes.map (fun p => p.Appliances.length)).sum

/-- Holds when one model lookup fails as the goroutine sees failure:
request build or transport error, non-200 status, decode error, or an
empty decoded friendly name. -/
def ModelLookup.failed : ModelLookup → Bool
  | .reqBuildErr _ => true
  | .transportErr _ => true
  | .response status decoded =>
    if status = 200 then
      match decoded with
      | .ok model => if model.FriendlyName = "" then true else false
      | .error _ => true
    else true

/-- Concrete description from the spec example: a process named HVAC
holding appliance a1 (blank friendly name, no model reference) and an
unnamed process holding appliance a2 (friendly name Pump). -/
def exampleDesc : descResp :=
  ⟨[⟨"p1", "HVAC", [⟨"a1", "", 0⟩]⟩, ⟨"p2", "", [⟨"a2", "Pump", 0⟩]⟩]⟩

/-- C1: with a non-empty cached token whose expiry is more than the
1-minute safety margin past the current instant, getTokenIfNeeded
returns success, issues no network request, and leaves the cached
token and expiry unchanged. -/
theorem tokenFastPathNoNetwork (st : DSState) (now : Int) (net : HttpResult)
    (htok : st.token ≠ "") (hexp : now < st.tokenExpiry - safetyMarginSec) :
    getTokenIfNeeded st now net = ⟨.ok (), st, 0⟩ := by
  unfold getTokenIfNeeded
  rw [if_pos ⟨htok, hexp⟩]

/-- Witness for tokenFastPathNoNetwork at a concrete state. -/
theorem tokenFastPathNoNetwork_witness :
    getTokenIfNeeded ⟨"tok", 1000⟩ 0 (.transportErr "down") = ⟨.ok (), ⟨"tok", 1000⟩, 0⟩ :=
  tokenFastPathNoNetwork ⟨"tok", 1000⟩ 0 (.transportErr "down") (by decide) (by decide)

/-- C2: on any refresh attempt (cache empty or stale) whose POST fails —
request-build error, transport error, non-200 status, or body-read
failure — getTokenIfNeeded returns an error and the cached token and
expiry are exactly what they were before the attempt. -/
theorem tokenRefreshFailurePreservesState (st : DSState) (now : Int) (net : HttpResult)
    (hstale : st.token = "" ∨ st.tokenExpiry - safetyMarginSec ≤ now)
    (hfail : refreshFails net = true) :
    (∃ e, (getTokenIfNeeded st now net).result = .error e) ∧
      (getTokenIfNeeded st now net).state = st := by
  have hnot : ¬ (st.token ≠ "" ∧ now < st.tokenExpiry - safetyMarginSec) := by
    rcases hstale with h | h
    · exact fun hc => hc.1 h
    · exact fun hc => absurd hc.2 (not_lt.mpr h)
  cases net with
  | reqBuildErr m =>
    simp only [getTokenIfNeeded, if_neg hnot]
    exact ⟨⟨_, rfl⟩, by first | rfl | trivial⟩
  | transportErr m =>
    simp only [getTokenIfNeeded, if_neg hnot]
    exact ⟨⟨_, rfl⟩, by first | rfl | trivial⟩
  | response status body =>
    simp only [getTokenIfNeeded, if_neg hnot]
    by_cases h200 : status ≠ 200
    · rw [if_pos h200]
      exact ⟨⟨_, rfl⟩, rfl⟩
    · rw [if_neg h200]
      cases body with
      | error m => exact ⟨⟨_, rfl⟩, rfl⟩
      | ok bytes =>
        exfalso
        simp only [refreshFails, if_neg h200] at hfail
        simp at hfail

/-- Witness for tokenRefreshFailurePreservesState: cold state, 500 reply. -/
theorem tokenRefreshFailurePreservesState_witness :
    (∃ e, (getTokenIfNeeded ⟨"", 0⟩ 50 (.response 500 (.ok "oops"))).result = .error e) ∧
      (getTokenIfNeeded ⟨"", 0⟩ 50 (.response 500 (.ok "oops"))).state = ⟨"", 0⟩ :=
  tokenRefreshFailurePreservesState ⟨"", 0⟩ 50 (.response 500 (.ok "oops"))
    (.inl rfl) (by decide)

/-- C8: whenever getTokenIfNeeded returns success, the current instant is
strictly before the stored expiry minus the 1-minute safety margin; when
the success came from a refresh (a network call was made), the stored
expiry is the refresh instant plus the fixed validity window, and that
window lies between 20 and 30 minutes. -/
theorem tokenReturnedValidInvariant (st : DSState) (now : Int) (net : HttpResult)
    (hok : (getTokenIfNeeded st now net).result = .ok ()) :
    now < (getTokenIfNeeded st now net).state.tokenExpiry - safetyMarginSec ∧
      ((getTokenIfNeeded st now net).netCalls = 1 →
        (getTokenIfNeeded st now net).state.tokenExpiry = now + tokenValiditySec) ∧
      20 * 60 ≤ tokenValiditySec ∧ tokenValiditySec ≤ 30 * 60 := by
  by_cases hfast : st.token ≠ "" ∧ now < st.tokenExpiry - safetyMarginSec
  · simp only [getTokenIfNeeded, if_pos hfast] at hok ⊢
    exact ⟨hfast.2, fun h => by simp at h, by decide, by decide⟩
  · cases net with
    | reqBuildErr m =>
      simp only [getTokenIfNeeded, if_neg hfast] at hok
      simp at hok
    | transportErr m =>
      simp only [getTokenIfNeeded, if_neg hfast] at hok
      simp at hok
    | response status body =>
      simp only [getTokenIfNeeded, if_neg hfast] at hok ⊢
      by_cases h200 : status ≠ 200
      · rw [if_pos h200] at hok
        simp at hok
      · rw [if_neg h200] at hok ⊢
        cases body with
        | error m => simp at hok
        | ok bytes =>
          refine ⟨?_, fun _ => rfl, by decide, by decide⟩
          show now < now + tokenValiditySec - safetyMarginSec
          have h : (0 : Int) < tokenValiditySec - safetyMarginSec := by decide
          omega

/-- Witness for tokenReturnedValidInvariant: cold state, successful refresh. -/
theorem tokenReturnedValidInvariant_witness :
    1000 < (getTokenIfNeeded ⟨"", 0⟩ 1000 (.response 200 (.ok "newtok"))).state.tokenExpiry
        - safetyMarginSec ∧
      ((getTokenIfNeeded ⟨"", 0⟩ 1000 (.response 200 (.ok "newtok"))).netCalls = 1 →
        (getTokenIfNeeded ⟨"", 0⟩ 1000 (.response 200 (.ok "newtok"))).state.tokenExpiry
          = 1000 + tokenValiditySec) ∧
      20 * 60 ≤ tokenValiditySec ∧ tokenValiditySec ≤ 30 * 60 :=
  tokenReturnedValidInvariant ⟨"", 0⟩ 1000 (.response 200 (.ok "newtok")) rfl

theorem convertPoints_foldl_acc (points : List TimeSeriesDataPoint) :
    ∀ ts vs, points.foldl
        (fun acc p => (acc.1 ++ [p.Time], acc.2 ++ [coerceValue p.Value])) (ts, vs)
      = (ts ++ points.map (fun p => p.Time),
         vs ++ points.map (fun p => coerceValue p.Value)) := by
  induction points with
  | nil => intro ts vs; simp
  | cons p ps ih => intro ts vs; simp [List.foldl_cons, ih]

theorem convertPoints_eq_map (points : List TimeSeriesDataPoint) :
    convertPoints points
      = (points.map (fun p => p.Time), points.map (fun p => coerceValue p.Value)) := by
  unfold convertPoints
  simpa using convertPoints_foldl_acc points [] []

/-- C3: the values sequence produced by the conversion loop has the same
length and order as the decoded input, each value is coerced by exactly
the source's priority table (float kept, int/int64 widened, bool to
1.0/0.0, string parsed with unparseable strings becoming 0.0, anything
else 0.0), and the concrete values "3.5", true, "notanumber", 42 yield
3.5, 1.0, 0.0, 42.0 in that order. -/
theorem valueCoercionSpec :
    (∀ points : List TimeSeriesDataPoint,
      (convertPoints points).2 = points.map (fun p => coerceValue p.Value)) ∧
    (∀ points : List TimeSeriesDataPoint,
      (convertPoints points).2.length = points.length) ∧
    (∀ x, coerceValue (.float x) = x) ∧
    (∀ n, coerceValue (.int n) = (n : ℚ)) ∧
    (∀ n, coerceValue (.int64 n) = (n : ℚ)) ∧
    coerceValue (.boolean true) = 1 ∧
    coerceValue (.boolean false) = 0 ∧
    (∀ s, coerceValue (.str s) = (ParseFloat s).getD 0) ∧
    coerceValue .other = 0 ∧
    (convertPoints
        [⟨0, .str "3.5"⟩, ⟨1, .boolean true⟩, ⟨2, .str "notanumber"⟩, ⟨3, .float 42⟩]).2
      = [(3.5 : ℚ), 1, 0, 42] ∧
    (∀ (st : DSState) (now : Int) (tokenNet : HttpResult) (b : String)
        (decodePoints : String → Except String (List TimeSeriesDataPoint))
        (points : List TimeSeriesDataPoint) (qm : WEMSQueryModel),
      (getTokenIfNeeded st now tokenNet).result = .ok () →
      ¬ (qm.EndpointID = "" ∨ qm.ApplianceID = "" ∨ qm.ServiceURI = ""
        ∨ qm.DataPoint = "") →
      decodePoints b = .ok points →
      (query st now tokenNet (.response 200 (.ok b)) decodePoints qm).resp
        = .frames (points.map (fun p => p.Time))
            (points.map (fun p => coerceValue p.Value))) := by
  refine ⟨fun points => by rw [convertPoints_eq_map],
    fun points => by rw [convertPoints_eq_map]; simp,
    fun x => rfl, fun n => rfl, fun n => rfl, rfl, rfl, ?_, rfl, ?_, ?_⟩
  · intro s
    show (match ParseFloat s with | some f => f | none => 0) = (ParseFloat s).getD 0
    cases ParseFloat s <;> rfl
  · have hlist : (convertPoints
        [⟨0, .str "3.5"⟩, ⟨1, .boolean true⟩, ⟨2, .str "notanumber"⟩, ⟨3, .float 42⟩]).2
        = [mkRat 35 10, 1, 0, 42] := by decide
    have h35 : mkRat 35 10 = (3.5 : ℚ) := by
      rw [Rat.mkRat_eq_div]
      norm_num
    rw [hlist, h35]
  · intro st now tokenNet b decodePoints points qm htok hfields hdec
    unfold query
    dsimp only
    split
    · next e heq =>
      rw [htok] at heq
      simp at heq
    · rw [if_neg hfields]
      simp only [bodyOrEmpty, hdec]
      rw [if_neg (by decide), convertPoints_eq_map]

/-- Witness for valueCoercionSpec: a successful query over the four
example points produces the coerced frame columns. -/
theorem valueCoercionSpec_witness :
    (query ⟨"tok", 1000⟩ 0 (.transportErr "x") (.response 200 (.ok "body"))
          (fun _ => .ok [⟨0, .str "3.5"⟩, ⟨1, .boolean true⟩,
            ⟨2, .str "notanumber"⟩, ⟨3, .float 42⟩])
          ⟨"e", "a", "s", "d", "", none⟩).resp
      = .frames
          (([⟨0, .str "3.5"⟩, ⟨1, .boolean true⟩, ⟨2, .str "notanumber"⟩,
              ⟨3, .float 42⟩] : List TimeSeriesDataPoint).map (fun p => p.Time))
          (([⟨0, .str "3.5"⟩, ⟨1, .boolean true⟩, ⟨2, .str "notanumber"⟩,
              ⟨3, .float 42⟩] : List TimeSeriesDataPoint).map
            (fun p => coerceValue p.Value)) :=
  valueCoercionSpec.2.2.2.2.2.2.2.2.2.2 ⟨"tok", 1000⟩ 0 (.transportErr "x") "body"
    (fun _ => .ok [⟨0, .str "3.5"⟩, ⟨1, .boolean true⟩,
      ⟨2, .str "notanumber"⟩, ⟨3, .float 42⟩])
    [⟨0, .str "3.5"⟩, ⟨1, .boolean true⟩, ⟨2, .str "notanumber"⟩, ⟨3, .float 42⟩]
    ⟨"e", "a", "s", "d", "", none⟩ rfl (by decide) rfl

theorem getTokenIfNeeded_netCalls_le_one (st : DSState) (now : Int) (net : HttpResult) :
    (getTokenIfNeeded st now net).netCalls ≤ 1 := by
  unfold getTokenIfNeeded
  split
  · exact Nat.zero_le 1
  · cases net with
    | reqBuildErr m => exact Nat.zero_le 1
    | transportErr m => exact Nat.le_refl 1
    | response status body =>
      dsimp only
      split
      · exact Nat.le_refl 1
      · cases body with
        | error m => exact Nat.le_refl 1
        | ok bytes => exact Nat.le_refl 1

/-- C4 (amended): when any of the four identifying fields is blank and
the preceding token acquisition succeeds, query returns the bad-request
validation error and issues no series HTTP call; the only HTTP request
possibly made while handling the query is the token manager's own
refresh (at most one). -/
theorem queryBlankFieldValidation (st : DSState) (now : Int)
    (tokenNet seriesNet : HttpResult)
    (decodePoints : String → Except String (List TimeSeriesDataPoint))
    (qm : WEMSQueryModel)
    (hblank : qm.EndpointID = "" ∨ qm.ApplianceID = "" ∨ qm.ServiceURI = ""
      ∨ qm.DataPoint = "")
    (htok : (getTokenIfNeeded st now tokenNet).result = .ok ()) :
    (query st now tokenNet seriesNet decodePoints qm).resp
        = .err .badRequest
            "Missing required query fields: endpoint_id, appliance_id, service_uri, data_point" ∧
      (query st now tokenNet seriesNet decodePoints qm).seriesCalls = 0 ∧
      (query st now tokenNet seriesNet decodePoints qm).tokenCalls ≤ 1 := by
  unfold query
  dsimp only
  split
  · next e heq =>
    rw [htok] at heq
    simp at heq
  · rw [if_pos hblank]
    exact ⟨rfl, rfl, getTokenIfNeeded_netCalls_le_one st now tokenNet⟩

/-- Witness for queryBlankFieldValidation: warm cached token, blank
endpoint id. -/
theorem queryBlankFieldValidation_witness :
    (query ⟨"tok", 1000⟩ 0 (.transportErr "x") (.response 200 (.ok "[]"))
          (fun _ => .ok []) ⟨"", "a", "s", "d", "", none⟩).resp
        = .err .badRequest
            "Missing required query fields: endpoint_id, appliance_id, service_uri, data_point" ∧
      (query ⟨"tok", 1000⟩ 0 (.transportErr "x") (.response 200 (.ok "[]"))
          (fun _ => .ok []) ⟨"", "a", "s", "d", "", none⟩).seriesCalls = 0 ∧
      (query ⟨"tok", 1000⟩ 0 (.transportErr "x") (.response 200 (.ok "[]"))
          (fun _ => .ok []) ⟨"", "a", "s", "d", "", none⟩).tokenCalls ≤ 1 :=
  queryBlankFieldValidation ⟨"tok", 1000⟩ 0 (.transportErr "x") (.response 200 (.ok "[]"))
    (fun _ => .ok []) ⟨"", "a", "s", "d", "", none⟩ (.inl rfl) rfl

/-- C4 counterexample: on a cold instance (empty cached token) a query
with a blank endpoint_id still triggers the token manager's HTTP POST,
and when that POST fails the handler returns an internal token error,
not the bad-request validation error — so, as stated, handling a
blank-field query can both issue an HTTP call and not return
bad-request. -/
theorem queryBlankFieldCounterexample :
    (query ⟨"", 0⟩ 0 (.transportErr "connection refused") (.response 200 (.ok "[]"))
          (fun _ => .ok []) ⟨"", "a", "s", "d", "", none⟩).resp
        = .err .internal "Token error: failed to get WEMS token: connection refused" ∧
      (query ⟨"", 0⟩ 0 (.transportErr "connection refused") (.response 200 (.ok "[]"))
          (fun _ => .ok []) ⟨"", "a", "s", "d", "", none⟩).tokenCalls = 1 := by
  constructor <;> rfl

theorem modelLabelOf_of_failed (ref : Int) (net : Int → ModelLookup)
    (hfail : (net ref).failed = true) : modelLabelOf ref net = "" := by
  by_cases h0 : ref ≠ 0
  · cases hnet : net ref with
    | reqBuildErr m => simp [modelLabelOf, hnet, h0]
    | transportErr m => simp [modelLabelOf, hnet, h0]
    | response status decoded =>
      by_cases h200 : status = 200
      · cases decoded with
        | error m => simp [modelLabelOf, hnet, h0, h200]
        | ok model =>
          by_cases hfn : model.FriendlyName = ""
          · simp [modelLabelOf, hnet, h0, h200, hfn]
          · exfalso
            rw [hnet] at hfail
            simp [ModelLookup.failed, h200, hfn] at hfail
      · simp [modelLabelOf, hnet, h0, h200]
  · simp [modelLabelOf, h0]

theorem applianceDispatch_length (desc : descResp) (net : Int → ModelLookup) :
    (applianceDispatch desc net).length = totalAppliances desc := by
  unfold applianceDispatch totalAppliances
  induction desc.Processes with
  | nil => rfl
  | cons p ps ih =>
    simp [List.flatMap_cons, List.length_append, List.length_map, ih]

theorem collectLoop_of_perm {l arrival : List ResourceItem} (h : arrival.Perm l) :
    collectLoop l.length arrival = arrival := by
  unfold collectLoop
  rw [← h.length_eq, List.take_length]

/-- Unfolded form of a successful appliance-list call: token present,
primary GET returns 200 with a body that decodes, so the branch fans
out, joins, marshals the collected items and replies 200. -/
theorem CallResource_appliance_ok (st : DSState) (now : Int) (tokenNet : HttpResult)
    (req : CallResourceRequest) (env : ResourceEnv) (arrival : List ResourceItem)
    (b : String) (desc : descResp)
    (htok : (getTokenIfNeeded st now tokenNet).result = .ok ())
    (hpath : req.Path = "appliance-list") (hid : req.endpointId ≠ "")
    (hlist : env.listNet = .response 200 (.ok b))
    (hdesc : env.decodeDesc b = .ok desc) :
    CallResource st now tokenNet req env arrival =
      ⟨⟨200, marshalSlice marshalApplianceItem
          (.alloc (collectLoop (applianceDispatch desc env.modelNet).length arrival))⟩,
        (getTokenIfNeeded st now tokenNet).state,
        (getTokenIfNeeded st now tokenNet).netCalls, 1,
        (applianceDispatch desc env.modelNet).length⟩ := by
  unfold CallResource
  dsimp only
  split
  · next e heq =>
    rw [htok] at heq
    simp at heq
  · rw [hpath]
    rw [if_neg (by decide), if_pos rfl, if_neg hid, hlist]
    simp only [fetchPrimary]
    rw [if_neg (by decide)]
    simp only [hdesc]

/-- Unfolded form of a successful service-list call: token present,
primary GET returns 200 with a body whose keys decode, so the branch
builds the uri/label items by appending to a nil slice and replies 200. -/
theorem CallResource_service_ok (st : DSState) (now : Int) (tokenNet : HttpResult)
    (req : CallResourceRequest) (env : ResourceEnv) (arrival : List ResourceItem)
    (b : String) (keys : List String)
    (htok : (getTokenIfNeeded st now tokenNet).result = .ok ())
    (hpath : req.Path = "service-list")
    (hid : req.endpointId ≠ "") (haid : req.applianceId ≠ "")
    (hlist : env.listNet = .response 200 (.ok b))
    (hkeys : env.decodeServiceKeys b = .ok keys) :
    CallResource st now tokenNet req env arrival =
      ⟨⟨200, marshalSlice marshalServiceItem
          (keys.foldl (fun acc k => goAppend acc k) GoSlice.nilSlice)⟩,
        (getTokenIfNeeded st now tokenNet).state,
        (getTokenIfNeeded st now tokenNet).netCalls, 1, 0⟩ := by
  unfold CallResource
  dsimp only
  split
  · next e heq =>
    rw [htok] at heq
    simp at heq
  · rw [hpath]
    rw [if_neg (by decide), if_neg (by decide), if_pos rfl]
    rw [if_neg (by simp [hid, haid]), hlist]
    simp only [fetchPrimary]
    rw [if_neg (by decide)]
    simp only [hkeys]

/-- C5: every appliance node's label is the friendly name, or the id when
the friendly name is blank, with the parenthesized process name appended
exactly when the owning process has a non-empty name (stated for
appliances without a model reference, where no bracketed suffix can
apply); on the two-process example the labels are a1 (HVAC) and Pump. -/
theorem applianceLabelSpec :
    (∀ (app : appliance) (procName : String) (net : Int → ModelLookup),
      app.ApplianceReference = 0 →
      (applianceTask app procName net).label =
        (if app.FriendlyName = "" then app.ID else app.FriendlyName) ++
          (if procName = "" then "" else " (" ++ procName ++ ")")) ∧
    (∀ net, applianceDispatch exampleDesc net
      = [⟨"a1", "a1 (HVAC)"⟩, ⟨"a2", "Pump"⟩]) := by
  constructor
  · intro app procName net h0
    have hml : modelLabelOf app.ApplianceReference net = "" := by
      simp [modelLabelOf, h0]
    simp only [applianceTask, preLabel, hml]
    by_cases hp : procName = ""
    · simp [hp]
    · simp [hp, String.append_assoc]
  · intro net
    rfl

/-- Witness for applianceLabelSpec: appliance a1 inside process HVAC. -/
theorem applianceLabelSpec_witness :
    (applianceTask ⟨"a1", "", 0⟩ "HVAC" (fun _ => ModelLookup.transportErr "x")).label
      = "a1 (HVAC)" := by
  have h := applianceLabelSpec.1 ⟨"a1", "", 0⟩ "HVAC"
    (fun _ => ModelLookup.transportErr "x") rfl
  rw [h]
  rfl

/-- C6: a failed model lookup (request build or transport error, non-200
status, decode failure, or empty decoded name) is fully swallowed: the
item keeps the pre-enrichment label with no bracketed suffix, the
appliance still appears in the joined result, and the overall
appliance-list call still replies 200; a successful lookup with a
non-empty name appends the bracketed model name to the label. -/
theorem modelEnrichmentFailureSwallowed :
    (∀ (app : appliance) (procName : String) (net : Int → ModelLookup),
      (net app.ApplianceReference).failed = true →
      (applianceTask app procName net).label = preLabel app procName) ∧
    (∀ (app : appliance) (procName : String) (net : Int → ModelLookup) (fn : String),
      app.ApplianceReference ≠ 0 →
      net app.ApplianceReference = .response 200 (.ok ⟨fn⟩) → fn ≠ "" →
      (applianceTask app procName net).label
        = preLabel app procName ++ " [" ++ fn ++ "]") ∧
    (∀ (desc : descResp) (proc : process) (app : appliance) (net : Int → ModelLookup)
        (arrival : List ResourceItem),
      arrival.Perm (applianceDispatch desc net) →
      proc ∈ desc.Processes → app ∈ proc.Appliances →
      applianceTask app proc.Name net
        ∈ collectLoop (applianceDispatch desc net).length arrival) ∧
    (∀ (st : DSState) (now : Int) (tokenNet : HttpResult) (req : CallResourceRequest)
        (env : ResourceEnv) (arrival : List ResourceItem) (b : String) (desc : descResp),
      (getTokenIfNeeded st now tokenNet).result = .ok () →
      req.Path = "appliance-list" → req.endpointId ≠ "" →
      env.listNet = .response 200 (.ok b) →
      env.decodeDesc b = .ok desc →
      (CallResource st now tokenNet req env arrival).resp.Status = 200) := by
  refine ⟨?_, ?_, ?_, ?_⟩
  · intro app procName net hfail
    have hml := modelLabelOf_of_failed app.ApplianceReference net hfail
    simp [applianceTask, hml]
  · intro app procName net fn h0 hnet hfn
    have hml : modelLabelOf app.ApplianceReference net = fn := by
      simp [modelLabelOf, h0, hnet, hfn]
    simp [applianceTask, hml, hfn]
  · intro desc proc app net arrival hperm hproc happ
    rw [collectLoop_of_perm hperm]
    refine hperm.mem_iff.mpr ?_
    unfold applianceDispatch
    exact List.mem_flatMap.mpr ⟨proc, hproc, List.mem_map.mpr ⟨app, happ, rfl⟩⟩
  · intro st now tokenNet req env arrival b desc htok hpath hid hlist hdesc
    rw [CallResource_appliance_ok st now tokenNet req env arrival b desc
      htok hpath hid hlist hdesc]

/-- Witness for modelEnrichmentFailureSwallowed: a lookup answered 404
leaves the pre-enrichment label. -/
theorem modelEnrichmentFailureSwallowed_witness :
    (applianceTask ⟨"a7", "Solar", 7⟩ "P"
        (fun _ => ModelLookup.response 404 (.error "no"))).label
      = preLabel ⟨"a7", "Solar", 7⟩ "P" :=
  modelEnrichmentFailureSwallowed.1 ⟨"a7", "Solar", 7⟩ "P"
    (fun _ => ModelLookup.response 404 (.error "no")) rfl

/-- C7: the fan-out dispatches exactly one enrichment task per appliance
(the dispatch count equals the total appliance count), the join consumes
exactly that many completions, and whatever order completions arrive in
(any permutation of the dispatched items) the joined result holds
exactly one entry per appliance. -/
theorem applianceFanOutJoin :
    (∀ (desc : descResp) (net : Int → ModelLookup),
      (applianceDispatch desc net).length = totalAppliances desc) ∧
    (∀ (desc : descResp) (net : Int → ModelLookup) (arrival : List ResourceItem),
      arrival.Perm (applianceDispatch desc net) →
      (collectLoop (applianceDispatch desc net).length arrival).Perm
          (applianceDispatch desc net) ∧
        (collectLoop (applianceDispatch desc net).length arrival).length
          = totalAppliances desc) ∧
    (∀ (st : DSState) (now : Int) (tokenNet : HttpResult) (req : CallResourceRequest)
        (env : ResourceEnv) (arrival : List ResourceItem) (b : String) (desc : descResp),
      (getTokenIfNeeded st now tokenNet).result = .ok () →
      req.Path = "appliance-list" → req.endpointId ≠ "" →
      env.listNet = .response 200 (.ok b) →
      env.decodeDesc b = .ok desc →
      (CallResource st now tokenNet req env arrival).taskCount = totalAppliances desc) := by
  refine ⟨applianceDispatch_length, ?_, ?_⟩
  · intro desc net arrival hperm
    rw [collectLoop_of_perm hperm]
    exact ⟨hperm, hperm.length_eq.trans (applianceDispatch_length desc net)⟩
  · intro st now tokenNet req env arrival b desc htok hpath hid hlist hdesc
    rw [CallResource_appliance_ok st now tokenNet req env arrival b desc
      htok hpath hid hlist hdesc]
    exact applianceDispatch_length desc env.modelNet

/-- Witness for applianceFanOutJoin: the example description joined in
dispatch order. -/
theorem applianceFanOutJoin_witness :
    (collectLoop
          (applianceDispatch exampleDesc (fun _ => ModelLookup.transportErr "x")).length
          (applianceDispatch exampleDesc (fun _ => ModelLookup.transportErr "x"))).Perm
        (applianceDispatch exampleDesc (fun _ => ModelLookup.transportErr "x")) ∧
      (collectLoop
          (applianceDispatch exampleDesc (fun _ => ModelLookup.transportErr "x")).length
          (applianceDispatch exampleDesc (fun _ => ModelLookup.transportErr "x"))).length
        = totalAppliances exampleDesc :=
  applianceFanOutJoin.2.1 exampleDesc (fun _ => ModelLookup.transportErr "x")
    (applianceDispatch exampleDesc (fun _ => ModelLookup.transportErr "x"))
    (List.Perm.refl _)

/-- C9: with a valid token, a CallResource request whose path is none of
the four list endpoints is answered 404 with body Not found, no primary
list request is issued and no enrichment task is dispatched. -/
theorem unknownResourcePathNotFound (st : DSState) (now : Int) (tokenNet : HttpResult)
    (req : CallResourceRequest) (env : ResourceEnv) (arrival : List ResourceItem)
    (htok : (getTokenIfNeeded st now tokenNet).result = .ok ())
    (h1 : req.Path ≠ "endpoint-list") (h2 : req.Path ≠ "appliance-list")
    (h3 : req.Path ≠ "service-list") (h4 : req.Path ≠ "datapoint-list") :
    (CallResource st now tokenNet req env arrival).resp = ⟨404, "Not found"⟩ ∧
      (CallResource st now tokenNet req env arrival).listCalls = 0 ∧
      (CallResource st now tokenNet req env arrival).taskCount = 0 := by
  unfold CallResource
  dsimp only
  split
  · next e heq =>
    rw [htok] at heq
    simp at heq
  · rw [if_neg h1, if_neg h2, if_neg h3, if_neg h4]
    exact ⟨rfl, rfl, rfl⟩

/-- Witness for unknownResourcePathNotFound at a concrete request. -/
theorem unknownResourcePathNotFound_witness :
    (CallResource ⟨"tok", 1000⟩ 0 (.transportErr "x") ⟨"bogus", "", "", ""⟩
          ⟨.transportErr "x", fun _ => .error "e", fun _ => .error "e",
            fun _ => ModelLookup.transportErr "x"⟩ []).resp = ⟨404, "Not found"⟩ ∧
      (CallResource ⟨"tok", 1000⟩ 0 (.transportErr "x") ⟨"bogus", "", "", ""⟩
          ⟨.transportErr "x", fun _ => .error "e", fun _ => .error "e",
            fun _ => ModelLookup.transportErr "x"⟩ []).listCalls = 0 ∧
      (CallResource ⟨"tok", 1000⟩ 0 (.transportErr "x") ⟨"bogus", "", "", ""⟩
          ⟨.transportErr "x", fun _ => .error "e", fun _ => .error "e",
            fun _ => ModelLookup.transportErr "x"⟩ []).taskCount = 0 :=
  unknownResourcePathNotFound ⟨"tok", 1000⟩ 0 (.transportErr "x") ⟨"bogus", "", "", ""⟩
    ⟨.transportErr "x", fun _ => .error "e", fun _ => .error "e",
      fun _ => ModelLookup.transportErr "x"⟩ []
    rfl (by decide) (by decide) (by decide) (by decide)

/-- C10: a successful appliance-list reply marshals the allocated result
slice, hence its body is a JSON array, and with zero appliances the body
is exactly the empty array; a successful service-list reply over an
empty key mapping marshals the untouched nil slice, hence its body is
null. -/
theorem emptyListBodies :
    (∀ (st : DSState) (now : Int) (tokenNet : HttpResult) (req : CallResourceRequest)
        (env : ResourceEnv) (arrival : List ResourceItem) (b : String) (desc : descResp),
      (getTokenIfNeeded st now tokenNet).result = .ok () →
      req.Path = "appliance-list" → req.endpointId ≠ "" →
      env.listNet = .response 200 (.ok b) →
      env.decodeDesc b = .ok desc →
      (∃ inner, (CallResource st now tokenNet req env arrival).resp.Body
          = "[" ++ inner ++ "]") ∧
        (totalAppliances desc = 0 →
          (CallResource st now tokenNet req env arrival).resp.Body = "[]")) ∧
    (∀ (st : DSState) (now : Int) (tokenNet : HttpResult) (req : CallResourceRequest)
        (env : ResourceEnv) (arrival : List ResourceItem) (b : String),
      (getTokenIfNeeded st now tokenNet).result = .ok () →
      req.Path = "service-list" → req.endpointId ≠ "" → req.applianceId ≠ "" →
      env.listNet = .response 200 (.ok b) →
      env.decodeServiceKeys b = .ok [] →
      (CallResource st now tokenNet req env arrival).resp.Body = "null") := by
  constructor
  · intro st now tokenNet req env arrival b desc htok hpath hid hlist hdesc
    rw [CallResource_appliance_ok st now tokenNet req env arrival b desc
      htok hpath hid hlist hdesc]
    constructor
    · exact ⟨_, rfl⟩
    · intro h0
      have hlen : (applianceDispatch desc env.modelNet).length = 0 :=
        (applianceDispatch_length desc env.modelNet).trans h0
      rw [hlen]
      rfl
  · intro st now tokenNet req env arrival b htok hpath hid haid hlist hkeys
    rw [CallResource_service_ok st now tokenNet req env arrival b []
      htok hpath hid haid hlist hkeys]
    rfl

/-- Witness for emptyListBodies: appliance list over a description with
no processes. -/
theorem emptyListBodies_witness :
    (∃ inner, (CallResource ⟨"tok", 1000⟩ 0 (.transportErr "x")
          ⟨"appliance-list", "ep1", "", ""⟩
          ⟨.response 200 (.ok "body"), fun _ => .ok ⟨[]⟩, fun _ => .error "e",
            fun _ => ModelLookup.transportErr "x"⟩ []).resp.Body
        = "[" ++ inner ++ "]") ∧
      (totalAppliances ⟨[]⟩ = 0 →
        (CallResource ⟨"tok", 1000⟩ 0 (.transportErr "x")
            ⟨"appliance-list", "ep1", "", ""⟩
            ⟨.response 200 (.ok "body"), fun _ => .ok ⟨[]⟩, fun _ => .error "e",
              fun _ => ModelLookup.transportErr "x"⟩ []).resp.Body = "[]") :=
  emptyListBodies.1 ⟨"tok", 1000⟩ 0 (.transportErr "x") ⟨"appliance-list", "ep1", "", ""⟩
    ⟨.response 200 (.ok "body"), fun _ => .ok ⟨[]⟩, fun _ => .error "e",
      fun _ => ModelLookup.transportErr "x"⟩ [] "body" ⟨[]⟩
    rfl rfl (by decide) rfl rfl

end WemsPlugin
